import Mathlib

/-!
Verification of the ENBUILD MCP server (vivsoftorg/enbuild-mcp-server).

The repository contains several generations of the same adapter:
* a token-based server (`part_002`-style main) with full parameter
  validation, VCS normalization and a table-rendering step;
* a username/password (Keycloak) server (`part_001`-style main);
* an older server (`mcpenbuild.go`) whose handlers propagate errors as
  Go `error` return values instead of failure envelopes;
* two versions of the local client wrapper (`pkg/enbuild/client.go` and
  the `part_005` variant), in both of which `WithAuthToken` is a no-op.

This file embeds the Normalizer / Dispatcher / Envelope-Builder pipeline
shallowly: the catalog service of the backend SDK is a parameter (a record of
functions), environment variables are an explicit record, and the MCP
argument mapping is an association list of strings (a missing key or a
non-string value behaves as the empty string, matching the Go
expression `args[k].(string)` with a discarded `ok`).  Handlers return
`Except String CatalogResponse`: the `.error` constructor corresponds to
the handler returning a non-nil Go `error` (a transport-level fault),
`.ok` to returning a tool result.  The Go code JSON-marshals the envelope
at every return; `json.MarshalIndent` cannot fail on the envelope struct
(only bools, ints, strings and catalog records), so serialization is
factored out into `emittedFields`, which models the `omitempty`
behaviour of the struct tags.  `strings.ToUpper` is modelled by
`strings.ToUpper`, defined below (ASCII case mapping).
-/

namespace strings

/-- The Go function `strings.ToUpper` restricted to the ASCII case mapping: uppercase
every character.  (Defined by a structural `List.map` over the characters so
that it evaluates inside the kernel.) -/
def ToUpper (s : String) : String :=
  ⟨s.data.map Char.toUpper⟩

end strings

/-- MCP tool-call arguments: a string-keyed mapping of string values. -/
abbrev Args := List (String × String)

/-- `args[key].(string)` with the `ok` flag discarded: the associated value,
or `""` when the key is absent (or the value is not a string). -/
def getArg (args : Args) (key : String) : String :=
  match args.find? (fun p => p.fst == key) with
  | some p => p.snd
  | none => ""

/-- Filter options for catalog queries (`CatalogListOptions`): `Name`,
`Type`, `VCS` (the Go field `Type` is rendered `typ`). -/
structure CatalogListOptions where
  name : String := ""
  typ : String := ""
  vcs : String := ""
  deriving DecidableEq, Repr

/-- An opaque backend catalog record; the adapter never interprets its
fields beyond pass-through display. -/
structure Catalog where
  id : String := ""
  name : String := ""
  typ : String := ""
  vcs : String := ""
  slug : String := ""
  description : String := ""
  version : String := ""
  deriving DecidableEq, Repr

/-- The catalog service of the backend SDK (`sdkClient.Catalogs`): `List` and
`Get`, each either returning data or failing with an error text. -/
structure Backend where
  list : CatalogListOptions → Except String (List Catalog)
  get : String → CatalogListOptions → Except String Catalog

/-- The `Data` payload of an envelope: an ordered sequence (list/search)
or a single record (get). -/
inductive CatalogData where
  | seq (catalogs : List Catalog)
  | single (catalog : Catalog)
  deriving DecidableEq, Repr

/-- `CatalogResponse`, the uniform response envelope (the `part_002` shape,
which adds the `Table` field; earlier variants omit it and leave it `""`). -/
structure CatalogResponse where
  Success : Bool := false
  Message : String := ""
  Count : Nat := 0
  Data : Option CatalogData := none
  Table : String := ""
  deriving DecidableEq, Repr

/-- The JSON keys emitted for an envelope by `json.MarshalIndent`, in struct
order, honouring the `omitempty` tags: `success` always; `message`, `count`,
`data`, `table` only when non-zero / non-nil / non-empty. -/
def emittedFields (r : CatalogResponse) : List String :=
  ["success"]
    ++ (if r.Message = "" then [] else ["message"])
    ++ (if r.Count = 0 then [] else ["count"])
    ++ (match r.Data with | none => [] | some _ => ["data"])
    ++ (if r.Table = "" then [] else ["table"])

namespace Wrapper

/-! The local client wrapper, `pkg/enbuild/client.go`.  `Client` carries the
configuration accumulated by the options plus the constructed SDK client;
SDK-client construction is a parameter `mkSDK` (the SDK is an external
collaborator). -/

/-- The configurable fields of the wrapper `Client` (`profile`, `baseURL`). -/
structure ClientCfg where
  profile : String := ""
  baseURL : String := ""
  deriving DecidableEq, Repr

/-- `ClientOption`: a function that configures a `Client`. -/
abbrev ClientOption := ClientCfg → ClientCfg

/-- `WithProfile` sets the AWS profile to use. -/
def WithProfile (profile : String) : ClientOption :=
  fun c => { c with profile := profile }

/-- `WithAuthToken` from `pkg/enbuild/client.go`: the returned closure has an
empty body, so it leaves the client unchanged. -/
def WithAuthToken (_token : String) : ClientOption :=
  fun c => c

/-- `WithBaseURL` sets the base URL for the ENBUILD API. -/
def WithBaseURL (baseURL : String) : ClientOption :=
  fun c => { c with baseURL := baseURL }

/-- `WithTimeout` from `pkg/enbuild/client.go`: the returned closure has an
empty body, so it leaves the client unchanged. -/
def WithTimeout (_timeout : Nat) : ClientOption :=
  fun c => c

/-- The option list handed to the SDK constructor: always `WithDebug(false)`,
plus the base URL when the accumulated config has a non-empty one. -/
structure SDKOptions where
  debug : Bool := false
  baseURL : Option String := none
  deriving DecidableEq, Repr

/-- The wrapper client: accumulated configuration plus the SDK client
(`σ` abstracts the SDK client type). -/
structure Client (σ : Type) where
  cfg : ClientCfg
  sdkClient : σ

/-- `NewClient` from `pkg/enbuild/client.go`: apply the options to a zero
`Client`, build the SDK options (debug off, base URL only when non-empty),
and construct the SDK client via `mkSDK`. -/
def NewClient {σ : Type} (mkSDK : SDKOptions → Except String σ)
    (options : List ClientOption) : Except String (Client σ) :=
  let cfg := options.foldl (fun c o => o c) {}
  let sdkOptions : SDKOptions :=
    { debug := false
      baseURL := if cfg.baseURL = "" then none else some cfg.baseURL }
  match mkSDK sdkOptions with
  | .error e => .error e
  | .ok s => .ok { cfg := cfg, sdkClient := s }

/-- `Client.ListCatalogs`: copy the wrapper options (or a zero value for
`nil`) into SDK options and call the SDK list operation. -/
def ListCatalogs (backend : Backend) (options : Option CatalogListOptions) :
    Except String (List Catalog) :=
  let sdkOptions : CatalogListOptions :=
    match options with
    | some o => { name := o.name, typ := o.typ, vcs := o.vcs }
    | none => {}
  backend.list sdkOptions

/-- `Client.GetCatalog`: copy the wrapper options (or a zero value for
`nil`) into SDK options and call the SDK get operation. -/
def GetCatalog (backend : Backend) (id : String)
    (options : Option CatalogListOptions) : Except String Catalog :=
  let sdkOptions : CatalogListOptions :=
    match options with
    | some o => { name := o.name, typ := o.typ, vcs := o.vcs }
    | none => {}
  backend.get id sdkOptions

/-- `Client.FilterCatalogsByVCS`: list with only the VCS filter set. -/
def FilterCatalogsByVCS (backend : Backend) (vcs : String) :
    Except String (List Catalog) :=
  ListCatalogs backend (some { vcs := vcs })

end Wrapper

namespace TokenVariant

/-! The token-based server (`part_002`-style main): handlers with full
validation, VCS normalization and the table-rendering step. -/

/-- The environment the token server reads: `ENBUILD_API_TOKEN` and
`ENBUILD_BASE_URL`. -/
structure Env where
  apiToken : String := ""
  baseURL : String := ""
  deriving DecidableEq, Repr

/-- `initializeClient`: pick the request token when non-empty, else the
environment token, else fail; then require a non-empty base URL.  The
result is the `(token, baseURL)` pair handed to `WithAuthToken` /
`WithBaseURL` when building the wrapper client (whose construction is
pure configuration assembly, see `Wrapper.NewClient`). -/
def initializeClient (env : Env) (token : String) :
    Except String (String × String) :=
  let chosen : Except String String :=
    if token ≠ "" then .ok token
    else if env.apiToken ≠ "" then .ok env.apiToken
    else .error "API token is required but not provided"
  match chosen with
  | .error e => .error e
  | .ok tok =>
    if env.baseURL = "" then .error "base URL is required but not provided"
    else .ok (tok, env.baseURL)

/-- `getToken`: the `token` argument of the request. -/
def getToken (args : Args) : String :=
  getArg args "token"

/-- `getSearchParams`: the `name`, `type`, `vcs` arguments of the request. -/
def getSearchParams (args : Args) : String × String × String :=
  (getArg args "name", getArg args "type", getArg args "vcs")

/-- `formatErrorResponse`: a failure envelope whose message is the stage
label, a colon-space, and the underlying error text.  (The Go function then
marshals the envelope, which cannot fail on this struct.) -/
def formatErrorResponse (message : String) (errText : String) :
    Except String CatalogResponse :=
  .ok { Success := false, Message := message ++ ": " ++ errText }

/-- `formatJSONResponse`: when the envelope is successful and non-empty,
attempt the table rendering (`generateTableOutput`, abstracted as the
`render` parameter) and attach it only when it succeeds; then emit the
envelope.  (The Go function then marshals the envelope, which cannot fail
on this struct.) -/
def formatJSONResponse (render : Option CatalogData → Except String String)
    (response : CatalogResponse) : Except String CatalogResponse :=
  let response :=
    if response.Success = true ∧ 0 < response.Count then
      match render response.Data with
      | .ok tableStr => { response with Table := tableStr }
      | .error _ => response
    else response
  .ok response

/-- `listCatalogs` handler: validate and normalize `vcs`, initialize the
client, filter by VCS, and wrap the result. -/
def listCatalogs (render : Option CatalogData → Except String String)
    (env : Env) (backend : Backend) (args : Args) :
    Except String CatalogResponse :=
  let vcs := getArg args "vcs"
  if vcs = "" then
    formatErrorResponse "Missing required parameter"
      "VCS parameter is required (GITHUB or GITLAB)"
  else
    let vcs := strings.ToUpper vcs
    if vcs ≠ "GITHUB" ∧ vcs ≠ "GITLAB" then
      formatErrorResponse "Invalid VCS value"
        "VCS must be either GITHUB or GITLAB"
    else
      match initializeClient env (getToken args) with
      | .error e => formatErrorResponse "Failed to initialize ENBUILD client" e
      | .ok _client =>
        match Wrapper.FilterCatalogsByVCS backend vcs with
        | .error e => formatErrorResponse "Failed to list catalogs" e
        | .ok catalogs =>
          formatJSONResponse render
            { Success := true
              Count := catalogs.length
              Data := some (.seq catalogs)
              Message := "Successfully retrieved " ++ toString catalogs.length
                ++ " catalogs for VCS: " ++ vcs }

/-- `getCatalogDetails` handler: require a non-empty `id`, initialize the
client, get the catalog, and wrap the result. -/
def getCatalogDetails (render : Option CatalogData → Except String String)
    (env : Env) (backend : Backend) (args : Args) :
    Except String CatalogResponse :=
  let id := getArg args "id"
  if id = "" then
    formatErrorResponse "Missing required parameter" "catalog ID is required"
  else
    match initializeClient env (getToken args) with
    | .error e => formatErrorResponse "Failed to initialize ENBUILD client" e
    | .ok _client =>
      match Wrapper.GetCatalog backend id none with
      | .error e => formatErrorResponse "Failed to get catalog details" e
      | .ok catalog =>
        formatJSONResponse render
          { Success := true
            Count := 1
            Data := some (.single catalog)
            Message := "Successfully retrieved details for catalog ID: " ++ id }

/-- `searchCatalogs` handler: require `name`, `type`, `vcs`, normalize and
validate `vcs`, initialize the client, list with all three filters, and
wrap the result. -/
def searchCatalogs (render : Option CatalogData → Except String String)
    (env : Env) (backend : Backend) (args : Args) :
    Except String CatalogResponse :=
  let params := getSearchParams args
  let name := params.1
  let catalogType := params.2.1
  let vcs := params.2.2
  if name = "" then
    formatErrorResponse "Missing required parameter" "name parameter is required"
  else if catalogType = "" then
    formatErrorResponse "Missing required parameter" "type parameter is required"
  else if vcs = "" then
    formatErrorResponse "Missing required parameter"
      "VCS parameter is required (GITHUB or GITLAB)"
  else
    let vcs := strings.ToUpper vcs
    if vcs ≠ "GITHUB" ∧ vcs ≠ "GITLAB" then
      formatErrorResponse "Invalid VCS value"
        "VCS must be either GITHUB or GITLAB"
    else
      match initializeClient env (getToken args) with
      | .error e => formatErrorResponse "Failed to initialize ENBUILD client" e
      | .ok _client =>
        match Wrapper.ListCatalogs backend
            (some { name := name, typ := catalogType, vcs := vcs }) with
        | .error e => formatErrorResponse "Failed to search catalogs" e
        | .ok catalogs =>
          let filterDesc := "name: \x27" ++ name ++ "\x27, type: \x27"
            ++ catalogType ++ "\x27, vcs: \x27" ++ vcs ++ "\x27"
          formatJSONResponse render
            { Success := true
              Count := catalogs.length
              Data := some (.seq catalogs)
              Message := "Found " ++ toString catalogs.length
                ++ " catalogs matching filters: " ++ filterDesc }

end TokenVariant

namespace KeycloakVariant

/-! The username/password server (`part_001`-style main): only the
credential-resolution step is needed here. -/

/-- The environment the Keycloak server reads: `ENBUILD_BASE_URL`,
`ENBUILD_USERNAME`, `ENBUILD_PASSWORD`. -/
structure Env where
  baseURL : String := ""
  username : String := ""
  password : String := ""
  deriving DecidableEq, Repr

/-- `getCredentials`: read `username`, `password`, `base_url` from the
arguments, fall back to the environment for each empty one, and fail if any
remains empty.  Returns `(baseURL, username, password)`. -/
def getCredentials (env : Env) (args : Args) :
    Except String (String × String × String) :=
  let username := getArg args "username"
  let password := getArg args "password"
  let baseURL := getArg args "base_url"
  let baseURL := if baseURL = "" then env.baseURL else baseURL
  let username := if username = "" then env.username else username
  let password := if password = "" then env.password else password
  if baseURL = "" ∨ username = "" ∨ password = "" then
    .error "Missing required credentials: baseURL, username, or password"
  else
    .ok (baseURL, username, password)

end KeycloakVariant

namespace McpVariant

/-! The older server (`mcpenbuild.go`) together with the `part_005` wrapper:
its handlers return plain text on success and propagate failures as Go
`error` values (`.error` here), not as failure envelopes. -/

/-- One rendered line of the plain-text catalog listing. -/
def catalogLine (c : Catalog) : String :=
  "- ID: " ++ c.id ++ ", Name: " ++ c.name ++ ", Type: " ++ c.typ
    ++ ", VCS: " ++ c.vcs ++ ", Slug: " ++ c.slug ++ "\n"

/-- `listCatalogs` handler from `mcpenbuild.go`: build the wrapper client
(the token option is a no-op and construction is pure configuration
assembly), call `ListCatalogs()` (zero options), and on failure return a
Go error `failed to list catalogs: ...`; on success return the rendered
text. -/
def listCatalogs (backend : Backend) (args : Args) : Except String String :=
  let _token := getArg args "token"
  match backend.list {} with
  | .error e => .error ("failed to list catalogs: " ++ e)
  | .ok catalogs =>
    .ok ("Catalogs:\n" ++ String.join (catalogs.map catalogLine))

end McpVariant

/-! Observation helpers: projections of a handler result onto the envelope
fields (`none` when the handler returned a Go error instead of a result). -/

/-- The `success` field of the returned envelope, if any. -/
def respSuccess : Except String CatalogResponse → Option Bool
  | .ok r => some r.Success
  | .error _ => none

/-- The `count` field of the returned envelope, if any. -/
def respCount : Except String CatalogResponse → Option Nat
  | .ok r => some r.Count
  | .error _ => none

/-- The `data` field of the returned envelope, if any. -/
def respData : Except String CatalogResponse → Option (Option CatalogData)
  | .ok r => some r.Data
  | .error _ => none

/-- The `message` field of the returned envelope, if any. -/
def respMessage : Except String CatalogResponse → Option String
  | .ok r => some r.Message
  | .error _ => none

/-! Sample values used to instantiate theorems with hypotheses. -/

/-- A concrete backend catalog record. -/
def sampleCatalog : Catalog :=
  { id := "1", name := "vpc", typ := "terraform", vcs := "GITHUB",
    slug := "vpc", description := "a vpc module", version := "v1" }

/-- A concrete token-server environment with both variables set. -/
def sampleEnv : TokenVariant.Env :=
  { apiToken := "tok", baseURL := "https://enbuild.example" }

/-- A concrete backend returning three catalogs on every list query and a
single catalog on every get query. -/
def sampleBackend : Backend :=
  { list := fun _ => .ok [sampleCatalog, sampleCatalog, sampleCatalog]
    get := fun _ _ => .ok sampleCatalog }

/-- A concrete backend failing every call with a network error. -/
def failingBackend : Backend :=
  { list := fun _ => .error "network error"
    get := fun _ _ => .error "network error" }

/-- A concrete table renderer that always fails. -/
def sampleRender : Option CatalogData → Except String String :=
  fun _ => .error "no table"

/-- `formatJSONResponse` always returns an envelope, and the table-attachment
step never changes the `success`, `count`, `data` or `message` fields. -/
theorem formatJSONResponse_fields
    (render : Option CatalogData → Except String String)
    (resp : CatalogResponse) :
    respSuccess (TokenVariant.formatJSONResponse render resp) = some resp.Success ∧
    respCount (TokenVariant.formatJSONResponse render resp) = some resp.Count ∧
    respData (TokenVariant.formatJSONResponse render resp) = some resp.Data ∧
    respMessage (TokenVariant.formatJSONResponse render resp) = some resp.Message := by
  simp only [TokenVariant.formatJSONResponse]
  split
  · split <;> simp [respSuccess, respCount, respData, respMessage]
  · simp [respSuccess, respCount, respData, respMessage]

/-- Claim C5: the wrapper option `WithAuthToken` leaves the client being
constructed unchanged, so `NewClient` with a token option builds exactly the
client built with no token option, for every SDK constructor: the token is
discarded and never reaches the SDK client. -/
theorem withAuthToken_is_discarded :
    ∀ (σ : Type) (mkSDK : Wrapper.SDKOptions → Except String σ) (t : String),
      (∀ c, Wrapper.WithAuthToken t c = c) ∧
      Wrapper.NewClient mkSDK [Wrapper.WithAuthToken t] =
        Wrapper.NewClient mkSDK [] ∧
      (∀ options, Wrapper.NewClient mkSDK (Wrapper.WithAuthToken t :: options) =
        Wrapper.NewClient mkSDK options) := by
  intro σ mkSDK t
  exact ⟨fun c => rfl, rfl, fun options => rfl⟩

/-- Claim C8: the table rendering is consulted exactly when the envelope has
`success = true` and `count > 0` (otherwise the result does not depend on the
renderer at all); a failed rendering is silently ignored, returning the
envelope unchanged (in particular still successful), and a successful one
only sets the `table` field. -/
theorem table_rendering_best_effort :
    ∀ resp : CatalogResponse,
      (resp.Success = true ∧ 0 < resp.Count →
        (∀ errText, TokenVariant.formatJSONResponse (fun _ => .error errText) resp =
          .ok resp) ∧
        (∀ tableStr, TokenVariant.formatJSONResponse (fun _ => .ok tableStr) resp =
          .ok { resp with Table := tableStr })) ∧
      (¬(resp.Success = true ∧ 0 < resp.Count) →
        ∀ render, TokenVariant.formatJSONResponse render resp = .ok resp) := by
  intro resp
  constructor
  · intro h
    constructor
    · intro errText
      simp [TokenVariant.formatJSONResponse, h]
    · intro tableStr
      simp [TokenVariant.formatJSONResponse, h]
  · intro h render
    simp only [TokenVariant.formatJSONResponse]
    rw [if_neg h]

/-- A concrete successful, non-empty envelope. -/
def sampleSuccessResp : CatalogResponse :=
  { Success := true, Count := 1, Data := some (.single sampleCatalog),
    Message := "ok" }

/-- Witness for C8 at a concrete successful, non-empty envelope: rendering
failure leaves the envelope unchanged. -/
theorem table_rendering_best_effort_witness :
    TokenVariant.formatJSONResponse (fun _ => .error "no table")
      sampleSuccessResp = .ok sampleSuccessResp :=
  ((table_rendering_best_effort sampleSuccessResp).1 (by decide)).1 "no table"

/-- The uppercase form of the empty string is empty. -/
theorem toUpper_empty : strings.ToUpper "" = "" := rfl

/-- Claim C1: a non-empty `vcs` argument to `list_catalogs` or
`search_catalogs` is uppercased; when the uppercase form is neither
`GITHUB` nor `GITLAB` the handler returns the invalid-value failure
envelope without consulting the backend (the result is the same constant
for every backend); when it is one of the two, the backend is consulted
only at the query carrying the uppercase form; an empty `vcs` yields the
missing-parameter failure envelope instead.  The `search_catalogs` clauses
assume `name` and `type` are present, as those checks come first. -/
theorem vcs_normalization :
    ∀ (render : Option CatalogData → Except String String)
      (env : TokenVariant.Env) (backend : Backend) (args : Args),
      (getArg args "vcs" = "" →
        TokenVariant.listCatalogs render env backend args =
          .ok { Success := false,
                Message := "Missing required parameter: VCS parameter is required (GITHUB or GITLAB)" }) ∧
      (getArg args "vcs" ≠ "" ∧ strings.ToUpper (getArg args "vcs") ≠ "GITHUB" ∧
          strings.ToUpper (getArg args "vcs") ≠ "GITLAB" →
        TokenVariant.listCatalogs render env backend args =
          .ok { Success := false,
                Message := "Invalid VCS value: VCS must be either GITHUB or GITLAB" }) ∧
      (strings.ToUpper (getArg args "vcs") = "GITHUB" ∨
          strings.ToUpper (getArg args "vcs") = "GITLAB" →
        ∀ backend2 : Backend,
          backend2.list { vcs := strings.ToUpper (getArg args "vcs") } =
            backend.list { vcs := strings.ToUpper (getArg args "vcs") } →
          TokenVariant.listCatalogs render env backend2 args =
            TokenVariant.listCatalogs render env backend args) ∧
      (getArg args "name" ≠ "" → getArg args "type" ≠ "" →
        (getArg args "vcs" = "" →
          TokenVariant.searchCatalogs render env backend args =
            .ok { Success := false,
                  Message := "Missing required parameter: VCS parameter is required (GITHUB or GITLAB)" }) ∧
        (getArg args "vcs" ≠ "" ∧ strings.ToUpper (getArg args "vcs") ≠ "GITHUB" ∧
            strings.ToUpper (getArg args "vcs") ≠ "GITLAB" →
          TokenVariant.searchCatalogs render env backend args =
            .ok { Success := false,
                  Message := "Invalid VCS value: VCS must be either GITHUB or GITLAB" }) ∧
        (strings.ToUpper (getArg args "vcs") = "GITHUB" ∨
            strings.ToUpper (getArg args "vcs") = "GITLAB" →
          ∀ backend2 : Backend,
            backend2.list
                { name := getArg args "name", typ := getArg args "type",
                  vcs := strings.ToUpper (getArg args "vcs") } =
              backend.list
                { name := getArg args "name", typ := getArg args "type",
                  vcs := strings.ToUpper (getArg args "vcs") } →
            TokenVariant.searchCatalogs render env backend2 args =
              TokenVariant.searchCatalogs render env backend args)) := by
  intro render env backend args
  refine ⟨?_, ?_, ?_, ?_⟩
  · intro h
    simp [TokenVariant.listCatalogs, h, TokenVariant.formatErrorResponse]
  · intro h
    simp [TokenVariant.listCatalogs, h.1, h.2.1, h.2.2,
      TokenVariant.formatErrorResponse]
  · intro hv backend2 hb
    have hne : getArg args "vcs" ≠ "" := by
      intro he
      rw [he] at hv
      simp [toUpper_empty] at hv
    have hgl : ¬(strings.ToUpper (getArg args "vcs") ≠ "GITHUB" ∧
        strings.ToUpper (getArg args "vcs") ≠ "GITLAB") := by
      rcases hv with h | h <;> simp [h]
    simp only [TokenVariant.listCatalogs, if_neg hne, if_neg hgl,
      Wrapper.FilterCatalogsByVCS, Wrapper.ListCatalogs]
    rw [hb]
  · intro hname htype
    refine ⟨?_, ?_, ?_⟩
    · intro h
      simp [TokenVariant.searchCatalogs, TokenVariant.getSearchParams,
        hname, htype, h, TokenVariant.formatErrorResponse]
    · intro h
      simp [TokenVariant.searchCatalogs, TokenVariant.getSearchParams,
        hname, htype, h.1, h.2.1, h.2.2, TokenVariant.formatErrorResponse]
    · intro hv backend2 hb
      have hne : getArg args "vcs" ≠ "" := by
        intro he
        rw [he] at hv
        simp [toUpper_empty] at hv
      have hgl : ¬(strings.ToUpper (getArg args "vcs") ≠ "GITHUB" ∧
          strings.ToUpper (getArg args "vcs") ≠ "GITLAB") := by
        rcases hv with h | h <;> simp [h]
      simp only [TokenVariant.searchCatalogs, TokenVariant.getSearchParams,
        if_neg hname, if_neg htype, if_neg hne, if_neg hgl,
        Wrapper.ListCatalogs]
      rw [hb]

/-- Witness for C1 at a concrete non-empty invalid VCS value: the handler
returns the invalid-value failure envelope. -/
theorem vcs_normalization_witness :
    TokenVariant.listCatalogs sampleRender sampleEnv sampleBackend
      [("vcs", "bitbucket")] =
    .ok { Success := false,
          Message := "Invalid VCS value: VCS must be either GITHUB or GITLAB" } :=
  (vcs_normalization sampleRender sampleEnv sampleBackend
    [("vcs", "bitbucket")]).2.1 (by decide)

/-- Claim C2: a call missing (or passing empty for) a field required by its
operation — `id` for `get_catalog_details`; `name`, `type`, `vcs` for
`search_catalogs` — returns the failure envelope naming that field, and the
result is the same constant for every backend and environment, so the
backend client is never invoked. -/
theorem missing_required_parameter :
    ∀ (render : Option CatalogData → Except String String)
      (env : TokenVariant.Env) (backend : Backend) (args : Args),
      (getArg args "id" = "" →
        TokenVariant.getCatalogDetails render env backend args =
          .ok { Success := false,
                Message := "Missing required parameter: catalog ID is required" }) ∧
      (getArg args "name" = "" →
        TokenVariant.searchCatalogs render env backend args =
          .ok { Success := false,
                Message := "Missing required parameter: name parameter is required" }) ∧
      (getArg args "name" ≠ "" → getArg args "type" = "" →
        TokenVariant.searchCatalogs render env backend args =
          .ok { Success := false,
                Message := "Missing required parameter: type parameter is required" }) ∧
      (getArg args "name" ≠ "" → getArg args "type" ≠ "" →
          getArg args "vcs" = "" →
        TokenVariant.searchCatalogs render env backend args =
          .ok { Success := false,
                Message := "Missing required parameter: VCS parameter is required (GITHUB or GITLAB)" }) := by
  intro render env backend args
  refine ⟨?_, ?_, ?_, ?_⟩
  · intro h
    simp [TokenVariant.getCatalogDetails, h, TokenVariant.formatErrorResponse]
  · intro h
    simp [TokenVariant.searchCatalogs, TokenVariant.getSearchParams, h,
      TokenVariant.formatErrorResponse]
  · intro hname h
    simp [TokenVariant.searchCatalogs, TokenVariant.getSearchParams, hname, h,
      TokenVariant.formatErrorResponse]
  · intro hname htype h
    simp [TokenVariant.searchCatalogs, TokenVariant.getSearchParams, hname,
      htype, h, TokenVariant.formatErrorResponse]

/-- Witness for C2: `get_catalog_details` with `id = ""` returns the
missing-parameter envelope of Scenario 1. -/
theorem missing_required_parameter_witness :
    TokenVariant.getCatalogDetails sampleRender sampleEnv sampleBackend
      [("id", "")] =
    .ok { Success := false,
          Message := "Missing required parameter: catalog ID is required" } :=
  (missing_required_parameter sampleRender sampleEnv sampleBackend
    [("id", "")]).1 (by decide)

/-- When a token is available from the request or the environment and the
environment provides a base URL, `initializeClient` succeeds with the
request token preferred over the environment token. -/
theorem initializeClient_ok (env : TokenVariant.Env) (t : String)
    (h1 : t ≠ "" ∨ env.apiToken ≠ "") (h2 : env.baseURL ≠ "") :
    TokenVariant.initializeClient env t =
      .ok (if t = "" then env.apiToken else t, env.baseURL) := by
  by_cases ht : t = ""
  · rcases h1 with h | h
    · exact absurd ht h
    · simp [TokenVariant.initializeClient, ht, h, h2]
  · simp [TokenVariant.initializeClient, ht, h2]

/-- Claim C3: on a successful dispatch, the envelope has `success = true`,
`count` equal to the length of the sequence the backend returned (0 for an
empty one), `data` equal to that sequence unchanged, and a message stating
the count and the effective filters (with the normalized uppercase VCS). -/
theorem success_envelope_count :
    ∀ (render : Option CatalogData → Except String String)
      (env : TokenVariant.Env) (backend : Backend) (args : Args)
      (cs : List Catalog),
      (TokenVariant.getToken args ≠ "" ∨ env.apiToken ≠ "") →
      env.baseURL ≠ "" →
      ((strings.ToUpper (getArg args "vcs") = "GITHUB" ∨
          strings.ToUpper (getArg args "vcs") = "GITLAB") →
        backend.list { vcs := strings.ToUpper (getArg args "vcs") } = .ok cs →
        respSuccess (TokenVariant.listCatalogs render env backend args) =
          some true ∧
        respCount (TokenVariant.listCatalogs render env backend args) =
          some cs.length ∧
        respData (TokenVariant.listCatalogs render env backend args) =
          some (some (.seq cs)) ∧
        respMessage (TokenVariant.listCatalogs render env backend args) =
          some ("Successfully retrieved " ++ toString cs.length
            ++ " catalogs for VCS: " ++ strings.ToUpper (getArg args "vcs"))) ∧
      (getArg args "name" ≠ "" → getArg args "type" ≠ "" →
        (strings.ToUpper (getArg args "vcs") = "GITHUB" ∨
          strings.ToUpper (getArg args "vcs") = "GITLAB") →
        backend.list
            { name := getArg args "name", typ := getArg args "type",
              vcs := strings.ToUpper (getArg args "vcs") } = .ok cs →
        respSuccess (TokenVariant.searchCatalogs render env backend args) =
          some true ∧
        respCount (TokenVariant.searchCatalogs render env backend args) =
          some cs.length ∧
        respData (TokenVariant.searchCatalogs render env backend args) =
          some (some (.seq cs)) ∧
        respMessage (TokenVariant.searchCatalogs render env backend args) =
          some ("Found " ++ toString cs.length ++ " catalogs matching filters: "
            ++ ("name: \x27" ++ getArg args "name" ++ "\x27, type: \x27"
              ++ getArg args "type" ++ "\x27, vcs: \x27"
              ++ strings.ToUpper (getArg args "vcs") ++ "\x27"))) := by
  intro render env backend args cs h1 h2
  constructor
  · intro hv hlist
    have hne : getArg args "vcs" ≠ "" := by
      intro he
      rw [he] at hv
      simp [toUpper_empty] at hv
    have hgl : ¬(strings.ToUpper (getArg args "vcs") ≠ "GITHUB" ∧
        strings.ToUpper (getArg args "vcs") ≠ "GITLAB") := by
      rcases hv with h | h <;> simp [h]
    simp only [TokenVariant.listCatalogs, if_neg hne, if_neg hgl,
      initializeClient_ok env (TokenVariant.getToken args) h1 h2,
      Wrapper.FilterCatalogsByVCS, Wrapper.ListCatalogs, hlist]
    exact ⟨(formatJSONResponse_fields render _).1,
      (formatJSONResponse_fields render _).2.1,
      (formatJSONResponse_fields render _).2.2.1,
      (formatJSONResponse_fields render _).2.2.2⟩
  · intro hname htype hv hlist
    have hne : getArg args "vcs" ≠ "" := by
      intro he
      rw [he] at hv
      simp [toUpper_empty] at hv
    have hgl : ¬(strings.ToUpper (getArg args "vcs") ≠ "GITHUB" ∧
        strings.ToUpper (getArg args "vcs") ≠ "GITLAB") := by
      rcases hv with h | h <;> simp [h]
    simp only [TokenVariant.searchCatalogs, TokenVariant.getSearchParams,
      if_neg hname, if_neg htype, if_neg hne, if_neg hgl,
      initializeClient_ok env (TokenVariant.getToken args) h1 h2,
      Wrapper.ListCatalogs, hlist]
    exact ⟨(formatJSONResponse_fields render _).1,
      (formatJSONResponse_fields render _).2.1,
      (formatJSONResponse_fields render _).2.2.1,
      (formatJSONResponse_fields render _).2.2.2⟩

/-- Witness for C3, Scenario 2: `list_catalogs` with `vcs = "github"` and a
backend returning three catalogs yields success, count 3, the three-item
sequence, and the message naming the normalized VCS. -/
theorem success_envelope_count_witness :
    respSuccess (TokenVariant.listCatalogs sampleRender sampleEnv sampleBackend
      [("vcs", "github")]) = some true ∧
    respCount (TokenVariant.listCatalogs sampleRender sampleEnv sampleBackend
      [("vcs", "github")]) = some 3 ∧
    respData (TokenVariant.listCatalogs sampleRender sampleEnv sampleBackend
      [("vcs", "github")]) =
      some (some (.seq [sampleCatalog, sampleCatalog, sampleCatalog])) ∧
    respMessage (TokenVariant.listCatalogs sampleRender sampleEnv sampleBackend
      [("vcs", "github")]) =
      some "Successfully retrieved 3 catalogs for VCS: GITHUB" :=
  (success_envelope_count sampleRender sampleEnv sampleBackend
    [("vcs", "github")] [sampleCatalog, sampleCatalog, sampleCatalog]
    (by decide) (by decide)).1 (by decide) rfl

/-- Claim C4: every per-call error envelope has `success = false` and a
message that is the stage label, a colon-space, and the underlying error
text; neither `count` nor `data` appears among the serialized JSON fields
(both are zero-valued and dropped by `omitempty`).  The last clause ties a
backend failure of `get_catalog_details` to exactly this envelope. -/
theorem error_envelope_shape :
    ∀ (label errText : String)
      (render : Option CatalogData → Except String String)
      (env : TokenVariant.Env) (backend : Backend) (args : Args),
      TokenVariant.formatErrorResponse label errText =
        .ok { Success := false, Message := label ++ ": " ++ errText } ∧
      "count" ∉
        emittedFields { Success := false, Message := label ++ ": " ++ errText } ∧
      "data" ∉
        emittedFields { Success := false, Message := label ++ ": " ++ errText } ∧
      (getArg args "id" ≠ "" →
        (TokenVariant.getToken args ≠ "" ∨ env.apiToken ≠ "") →
        env.baseURL ≠ "" →
        backend.get (getArg args "id") {} = .error errText →
        TokenVariant.getCatalogDetails render env backend args =
          .ok { Success := false,
                Message := "Failed to get catalog details: " ++ errText }) := by
  intro label errText render env backend args
  refine ⟨rfl, ?_, ?_, ?_⟩
  · by_cases hm : label ++ ": " ++ errText = "" <;> simp [emittedFields, hm]
  · by_cases hm : label ++ ": " ++ errText = "" <;> simp [emittedFields, hm]
  · intro hid h1 h2 hget
    simp only [TokenVariant.getCatalogDetails, if_neg hid,
      initializeClient_ok env (TokenVariant.getToken args) h1 h2,
      Wrapper.GetCatalog, hget]
    rfl

/-- Witness for C4, Scenario 4: a backend network error during
`get_catalog_details` yields the labelled failure envelope. -/
theorem error_envelope_shape_witness :
    TokenVariant.getCatalogDetails sampleRender sampleEnv failingBackend
      [("id", "42")] =
    .ok { Success := false,
          Message := "Failed to get catalog details: network error" } :=
  (error_envelope_shape "Failed to get catalog details" "network error"
    sampleRender sampleEnv failingBackend [("id", "42")]).2.2.2
    (by decide) (by decide) (by decide) rfl

/-- Claim C7: credentials come from the explicit request argument when
non-empty, otherwise from the environment default, and when neither source
yields a non-empty value for a required credential the call fails instead of
proceeding — for the token variant (`initializeClient`: token with
environment fallback, base URL from the environment) and for the
username/password variant (`getCredentials`: base URL, username, password,
each with environment fallback). -/
theorem credential_fallback :
    ∀ (env : TokenVariant.Env) (envk : KeycloakVariant.Env) (token : String)
      (args : Args),
      (token ≠ "" → env.baseURL ≠ "" →
        TokenVariant.initializeClient env token = .ok (token, env.baseURL)) ∧
      (token = "" → env.apiToken ≠ "" → env.baseURL ≠ "" →
        TokenVariant.initializeClient env token =
          .ok (env.apiToken, env.baseURL)) ∧
      (token = "" → env.apiToken = "" →
        TokenVariant.initializeClient env token =
          .error "API token is required but not provided") ∧
      ((token ≠ "" ∨ env.apiToken ≠ "") → env.baseURL = "" →
        TokenVariant.initializeClient env token =
          .error "base URL is required but not provided") ∧
      ((if getArg args "base_url" = "" then envk.baseURL
          else getArg args "base_url") ≠ "" →
       (if getArg args "username" = "" then envk.username
          else getArg args "username") ≠ "" →
       (if getArg args "password" = "" then envk.password
          else getArg args "password") ≠ "" →
        KeycloakVariant.getCredentials envk args =
          .ok (
            (if getArg args "base_url" = "" then envk.baseURL
              else getArg args "base_url"),
            (if getArg args "username" = "" then envk.username
              else getArg args "username"),
            (if getArg args "password" = "" then envk.password
              else getArg args "password"))) ∧
      (((if getArg args "base_url" = "" then envk.baseURL
          else getArg args "base_url") = "" ∨
        (if getArg args "username" = "" then envk.username
          else getArg args "username") = "" ∨
        (if getArg args "password" = "" then envk.password
          else getArg args "password") = "") →
        KeycloakVariant.getCredentials envk args =
          .error "Missing required credentials: baseURL, username, or password") := by
  intro env envk token args
  refine ⟨?_, ?_, ?_, ?_, ?_, ?_⟩
  · intro ht hb
    simp [TokenVariant.initializeClient, ht, hb]
  · intro ht ha hb
    simp [TokenVariant.initializeClient, ht, ha, hb]
  · intro ht ha
    simp [TokenVariant.initializeClient, ht, ha]
  · intro h hb
    rcases h with h | h
    · simp [TokenVariant.initializeClient, h, hb]
    · by_cases ht : token = "" <;>
        simp [TokenVariant.initializeClient, ht, h, hb]
  · intro hb hu hp
    simp [KeycloakVariant.getCredentials, hb, hu, hp]
  · intro h
    simp only [KeycloakVariant.getCredentials]
    rw [if_pos h]

/-- Witness for C7: with an empty request token and environment defaults
set, the environment token is used together with the environment base URL. -/
theorem credential_fallback_witness :
    TokenVariant.initializeClient sampleEnv "" =
      .ok (sampleEnv.apiToken, sampleEnv.baseURL) :=
  (credential_fallback sampleEnv {} "" []).2.1 rfl (by decide) (by decide)

/-- Claim C9: `get_catalog_details` passes the catalog record of the backend
through unchanged as the envelope `data`, with `count = 1` when the item is
found; when the backend reports the item as not found (an error), the
resulting envelope carries `count = 0` (and is the labelled failure
envelope). -/
theorem get_catalog_passthrough :
    ∀ (render : Option CatalogData → Except String String)
      (env : TokenVariant.Env) (backend : Backend) (args : Args),
      getArg args "id" ≠ "" →
      (TokenVariant.getToken args ≠ "" ∨ env.apiToken ≠ "") →
      env.baseURL ≠ "" →
      (∀ c : Catalog, backend.get (getArg args "id") {} = .ok c →
        respSuccess (TokenVariant.getCatalogDetails render env backend args) =
          some true ∧
        respCount (TokenVariant.getCatalogDetails render env backend args) =
          some 1 ∧
        respData (TokenVariant.getCatalogDetails render env backend args) =
          some (some (.single c)) ∧
        respMessage (TokenVariant.getCatalogDetails render env backend args) =
          some ("Successfully retrieved details for catalog ID: "
            ++ getArg args "id")) ∧
      (∀ errText : String, backend.get (getArg args "id") {} = .error errText →
        respSuccess (TokenVariant.getCatalogDetails render env backend args) =
          some false ∧
        respCount (TokenVariant.getCatalogDetails render env backend args) =
          some 0 ∧
        respData (TokenVariant.getCatalogDetails render env backend args) =
          some none) := by
  intro render env backend args hid h1 h2
  constructor
  · intro c hget
    simp only [TokenVariant.getCatalogDetails, if_neg hid,
      initializeClient_ok env (TokenVariant.getToken args) h1 h2,
      Wrapper.GetCatalog, hget]
    exact ⟨(formatJSONResponse_fields render _).1,
      (formatJSONResponse_fields render _).2.1,
      (formatJSONResponse_fields render _).2.2.1,
      (formatJSONResponse_fields render _).2.2.2⟩
  · intro errText hget
    simp only [TokenVariant.getCatalogDetails, if_neg hid,
      initializeClient_ok env (TokenVariant.getToken args) h1 h2,
      Wrapper.GetCatalog, hget]
    exact ⟨rfl, rfl, rfl⟩

/-- Witness for C9 at a concrete found item: the backend record appears
unchanged as the envelope data with count 1. -/
theorem get_catalog_passthrough_witness :
    respSuccess (TokenVariant.getCatalogDetails sampleRender sampleEnv
      sampleBackend [("id", "42")]) = some true ∧
    respCount (TokenVariant.getCatalogDetails sampleRender sampleEnv
      sampleBackend [("id", "42")]) = some 1 ∧
    respData (TokenVariant.getCatalogDetails sampleRender sampleEnv
      sampleBackend [("id", "42")]) = some (some (.single sampleCatalog)) ∧
    respMessage (TokenVariant.getCatalogDetails sampleRender sampleEnv
      sampleBackend [("id", "42")]) =
      some "Successfully retrieved details for catalog ID: 42" :=
  ((get_catalog_passthrough sampleRender sampleEnv sampleBackend [("id", "42")]
    (by decide) (by decide) (by decide)).1 sampleCatalog rfl)

/-- Claim C10: the handlers are deterministic in everything except the
secondary rendering artifact: for the same argument mapping, environment and
backend, two invocations — even with different (e.g. non-deterministic)
table renderers — produce envelopes with identical `success`, `count` and
`data` fields, for all three tools. -/
theorem handler_determinism :
    ∀ (render1 render2 : Option CatalogData → Except String String)
      (env : TokenVariant.Env) (backend : Backend) (args : Args),
      (respSuccess (TokenVariant.listCatalogs render1 env backend args) =
        respSuccess (TokenVariant.listCatalogs render2 env backend args) ∧
       respCount (TokenVariant.listCatalogs render1 env backend args) =
        respCount (TokenVariant.listCatalogs render2 env backend args) ∧
       respData (TokenVariant.listCatalogs render1 env backend args) =
        respData (TokenVariant.listCatalogs render2 env backend args)) ∧
      (respSuccess (TokenVariant.getCatalogDetails render1 env backend args) =
        respSuccess (TokenVariant.getCatalogDetails render2 env backend args) ∧
       respCount (TokenVariant.getCatalogDetails render1 env backend args) =
        respCount (TokenVariant.getCatalogDetails render2 env backend args) ∧
       respData (TokenVariant.getCatalogDetails render1 env backend args) =
        respData (TokenVariant.getCatalogDetails render2 env backend args)) ∧
      (respSuccess (TokenVariant.searchCatalogs render1 env backend args) =
        respSuccess (TokenVariant.searchCatalogs render2 env backend args) ∧
       respCount (TokenVariant.searchCatalogs render1 env backend args) =
        respCount (TokenVariant.searchCatalogs render2 env backend args) ∧
       respData (TokenVariant.searchCatalogs render1 env backend args) =
        respData (TokenVariant.searchCatalogs render2 env backend args)) := by
  intro render1 render2 env backend args
  have hfld : ∀ (r1 r2 : Option CatalogData → Except String String)
      (resp : CatalogResponse),
      respSuccess (TokenVariant.formatJSONResponse r1 resp) =
        respSuccess (TokenVariant.formatJSONResponse r2 resp) ∧
      respCount (TokenVariant.formatJSONResponse r1 resp) =
        respCount (TokenVariant.formatJSONResponse r2 resp) ∧
      respData (TokenVariant.formatJSONResponse r1 resp) =
        respData (TokenVariant.formatJSONResponse r2 resp) := by
    intro r1 r2 resp
    exact ⟨((formatJSONResponse_fields r1 resp).1).trans
        ((formatJSONResponse_fields r2 resp).1).symm,
      ((formatJSONResponse_fields r1 resp).2.1).trans
        ((formatJSONResponse_fields r2 resp).2.1).symm,
      ((formatJSONResponse_fields r1 resp).2.2.1).trans
        ((formatJSONResponse_fields r2 resp).2.2.1).symm⟩
  refine ⟨?_, ?_, ?_⟩
  · by_cases h1 : getArg args "vcs" = ""
    · simp [TokenVariant.listCatalogs, h1]
    · by_cases h2 : strings.ToUpper (getArg args "vcs") ≠ "GITHUB" ∧
          strings.ToUpper (getArg args "vcs") ≠ "GITLAB"
      · simp [TokenVariant.listCatalogs, h1, h2]
      · simp only [TokenVariant.listCatalogs, if_neg h1, if_neg h2]
        cases TokenVariant.initializeClient env (TokenVariant.getToken args) with
        | error e => exact ⟨rfl, rfl, rfl⟩
        | ok c =>
          cases Wrapper.FilterCatalogsByVCS backend
              (strings.ToUpper (getArg args "vcs")) with
          | error e => exact ⟨rfl, rfl, rfl⟩
          | ok cs => exact hfld render1 render2 _
  · by_cases h1 : getArg args "id" = ""
    · simp [TokenVariant.getCatalogDetails, h1]
    · simp only [TokenVariant.getCatalogDetails, if_neg h1]
      cases TokenVariant.initializeClient env (TokenVariant.getToken args) with
      | error e => exact ⟨rfl, rfl, rfl⟩
      | ok c =>
        cases Wrapper.GetCatalog backend (getArg args "id") none with
        | error e => exact ⟨rfl, rfl, rfl⟩
        | ok cat => exact hfld render1 render2 _
  · by_cases h1 : getArg args "name" = ""
    · simp [TokenVariant.searchCatalogs, TokenVariant.getSearchParams, h1]
    · by_cases h2 : getArg args "type" = ""
      · simp [TokenVariant.searchCatalogs, TokenVariant.getSearchParams, h1, h2]
      · by_cases h3 : getArg args "vcs" = ""
        · simp [TokenVariant.searchCatalogs, TokenVariant.getSearchParams,
            h1, h2, h3]
        · by_cases h4 : strings.ToUpper (getArg args "vcs") ≠ "GITHUB" ∧
              strings.ToUpper (getArg args "vcs") ≠ "GITLAB"
          · simp [TokenVariant.searchCatalogs, TokenVariant.getSearchParams,
              h1, h2, h3, h4]
          · simp only [TokenVariant.searchCatalogs,
              TokenVariant.getSearchParams, if_neg h1, if_neg h2, if_neg h3,
              if_neg h4]
            cases TokenVariant.initializeClient env
                (TokenVariant.getToken args) with
            | error e => exact ⟨rfl, rfl, rfl⟩
            | ok c =>
              cases Wrapper.ListCatalogs backend
                  (some { name := getArg args "name",
                          typ := getArg args "type",
                          vcs := strings.ToUpper (getArg args "vcs") }) with
              | error e => exact ⟨rfl, rfl, rfl⟩
              | ok cs => exact hfld render1 render2 _

/-- Counterexample to C6 as stated: in the `mcpenbuild.go` variant (one of
the code locations cited by the claim), a backend failure is propagated as a Go
`error` return — a transport-level fault handed to the MCP runtime — not
returned as a structured failure envelope. -/
theorem legacy_backend_failure_is_transport_fault :
    McpVariant.listCatalogs failingBackend [] =
      .error "failed to list catalogs: network error" := rfl

/-- Claim C6 as amended: in the validating (envelope-producing) server
variant, every handler invocation — including every validation and backend
failure — returns a structured envelope as its result value and never a
handler error; the `mcpenbuild.go` variant instead returns backend and
client-initialization failures as handler errors to the transport runtime. -/
theorem per_call_errors_returned_as_envelopes :
    ∀ (render : Option CatalogData → Except String String)
      (env : TokenVariant.Env) (backend : Backend) (args : Args),
      (∃ e, TokenVariant.listCatalogs render env backend args = .ok e) ∧
      (∃ e, TokenVariant.getCatalogDetails render env backend args = .ok e) ∧
      (∃ e, TokenVariant.searchCatalogs render env backend args = .ok e) := by
  intro render env backend args
  have hfmt : ∀ (r : Option CatalogData → Except String String)
      (resp : CatalogResponse),
      ∃ e, TokenVariant.formatJSONResponse r resp = .ok e := by
    intro r resp
    simp only [TokenVariant.formatJSONResponse]
    split
    · split <;> exact ⟨_, rfl⟩
    · exact ⟨_, rfl⟩
  refine ⟨?_, ?_, ?_⟩
  · simp only [TokenVariant.listCatalogs]
    split
    · exact ⟨_, rfl⟩
    · split
      · exact ⟨_, rfl⟩
      · split
        · exact ⟨_, rfl⟩
        · split
          · exact ⟨_, rfl⟩
          · exact hfmt render _
  · simp only [TokenVariant.getCatalogDetails]
    split
    · exact ⟨_, rfl⟩
    · split
      · exact ⟨_, rfl⟩
      · split
        · exact ⟨_, rfl⟩
        · exact hfmt render _
  · simp only [TokenVariant.searchCatalogs]
    split
    · exact ⟨_, rfl⟩
    · split
      · exact ⟨_, rfl⟩
      · split
        · exact ⟨_, rfl⟩
        · split
          · exact ⟨_, rfl⟩
          · split
            · exact ⟨_, rfl⟩
            · split
              · exact ⟨_, rfl⟩
              · exact hfmt render _
